import Mathlib

/-!
Verification of the `stepfunc/promise` library (`src/lib.rs`).

The library consists of a trait `FutureType<V>` (a completable: a fallback
producer `on_drop() -> V` and a one-shot consuming operation
`complete(self, result: V)`) and a guard `Promise<T, V>` holding an
`Option<T>` slot.  `Promise::complete` and the `Drop` impl both perform
`self.inner.take()` and, if a completable was present, invoke its
consuming `complete` on it.

Shallow embedding: the side effect of the completable's consuming
operation is modelled as a state transformer `T → V → σ → σ` over an
abstract effect state `σ` (chosen by the implementer of the contract; for
the test's `Borrowed` it is the observable sink, a list of results).  The
guard's operations become functions from `(Promise, σ)` to `(Promise, σ)`,
matching the Rust branch structure.  To observe how often and with which
values the consuming operation is invoked, `traceFT` instruments an
arbitrary contract so that every invocation also appends the delivered
value to a trace list; the trace is exactly the sequence of invocations
of the underlying `complete`.
-/

/-- The `FutureType<V>` trait for a concrete implementing type `T` whose
completion side effect acts on an effect state `σ`: `on_drop` is the
fallback value `T::on_drop()`, and `complete` is the consuming operation
`fn complete(self, result: V)` with its effect made explicit as a state
transformer. -/
structure FutureType (T V σ : Type) where
  on_drop : V
  complete : T → V → σ → σ

/-- `Promise<T, V>`: the guard's runtime content is the `inner: Option<T>`
slot (the `PhantomData<V>` marker has no runtime footprint and is carried
by the type parameter `V` of the operations instead). -/
structure Promise (T V : Type) where
  inner : Option T

/-- `Promise::new`: construct a promise from a completable, slot filled. -/
def Promise.new {T V : Type} (inner : T) : Promise T V :=
  ⟨some inner⟩

/-- `Promise::complete(mut self, result: V)`:
`if let Some(x) = self.inner.take() { x.complete(result); }`.
Returns the guard as left behind by `take` (slot empty in both branches)
together with the resulting effect state. -/
def Promise.complete {T V σ : Type} (ft : FutureType T V σ) (p : Promise T V)
    (result : V) (s : σ) : Promise T V × σ :=
  match p.inner with
  | some x => (⟨none⟩, ft.complete x result s)
  | none => (⟨none⟩, s)

/-- `wrap`: wrap a completable into a drop-safe promise. -/
def wrap {T V : Type} (callback : T) : Promise T V :=
  Promise.new callback

/-- `Drop for Promise`:
`if let Some(cb) = self.inner.take() { cb.complete(T::on_drop()); }`. -/
def Promise.dropHook {T V σ : Type} (ft : FutureType T V σ) (p : Promise T V)
    (s : σ) : Promise T V × σ :=
  match p.inner with
  | some cb => (⟨none⟩, ft.complete cb ft.on_drop s)
  | none => (⟨none⟩, s)

/-- Instrumentation: run the same contract over the state `σ × List V`,
where the second component records, in order, every value ever passed to
the underlying consuming `complete`.  The trace length is therefore the
number of invocations of the wrapped completable's consuming operation. -/
def traceFT {T V σ : Type} (ft : FutureType T V σ) : FutureType T V (σ × List V) :=
  ⟨ft.on_drop, fun t v s => (ft.complete t v s.1, s.2 ++ [v])⟩

/-- A full guard lifecycle as the borrow checker permits it: wrap the
completable, then either call `complete` explicitly (which consumes the
guard, so its own drop hook then runs on the taken-out slot) or drop the
guard directly.  `a = some v` is the run with one explicit
`complete(v)`; `a = none` is abandonment. -/
def lifecycle {T V σ : Type} (ft : FutureType T V σ) (t : T) (a : Option V)
    (s : σ) : Promise T V × σ :=
  match a with
  | some v =>
    let r := Promise.complete ft (wrap t) v s
    Promise.dropHook ft r.1 r.2
  | none => Promise.dropHook ft (wrap t) s

/-- The lifecycle run over the instrumented contract, starting from an
empty trace: returns the final guard, the final underlying effect state,
and the full delivery trace. -/
def tracedRun {T V σ : Type} (ft : FutureType T V σ) (t : T) (a : Option V)
    (s : σ) : Promise T V × (σ × List V) :=
  lifecycle (traceFT ft) t a (s, [])

/-- The test contract `Borrowed<'a>` from the test module: value type
`Result<u32, &'static str>`, effect state the observable sink
`Vec<Result<u32, &'static str>>`; `on_drop()` is `Err("dropped")` and
`complete` pushes the result onto the sink.  The borrowed vector pointer
itself carries no data, so `T := Unit`. -/
def borrowedFT : FutureType Unit (Except String Nat) (List (Except String Nat)) :=
  ⟨Except.error "dropped", fun _ result vec => vec ++ [result]⟩

/-- Reference behaviour for the refinement claim, following the spec's
words: complete the completable directly with the result, no guard
involved. -/
def directComplete {T V σ : Type} (ft : FutureType T V σ) (t : T) (v : V)
    (s : σ) : σ :=
  ft.complete t v s

/-- The operations a holder can request on a live guard. -/
inductive Op (V : Type) where
  | complete (v : V)
  | dropGuard

/-- Small-step labelled transition relation of the guard, one constructor
per branch of the Rust code: explicit completion with a full or empty
slot, and the drop hook with a full or empty slot. -/
inductive Step {T V σ : Type} (ft : FutureType T V σ) :
    Promise T V × σ → Op V → Promise T V × σ → Prop where
  | completeSome (x : T) (v : V) (s : σ) :
      Step ft (⟨some x⟩, s) (Op.complete v) (⟨none⟩, ft.complete x v s)
  | completeNone (v : V) (s : σ) :
      Step ft (⟨none⟩, s) (Op.complete v) (⟨none⟩, s)
  | dropSome (x : T) (s : σ) :
      Step ft (⟨some x⟩, s) Op.dropGuard (⟨none⟩, ft.complete x ft.on_drop s)
  | dropNone (s : σ) :
      Step ft (⟨none⟩, s) Op.dropGuard (⟨none⟩, s)

/-- Reflexive-transitive runs of `Step` along a list of operations. -/
inductive Steps {T V σ : Type} (ft : FutureType T V σ) :
    Promise T V × σ → List (Op V) → Promise T V × σ → Prop where
  | nil (c : Promise T V × σ) : Steps ft c [] c
  | cons {c c' c'' : Promise T V × σ} {op : Op V} {ops : List (Op V)} :
      Step ft c op c' → Steps ft c' ops c'' → Steps ft c (op :: ops) c''

/-- Each `Step` constructor is exactly one branch of `Promise.complete` or
of the drop hook, so a step is the corresponding function application. -/
theorem Step.agrees_complete {T V σ : Type} (ft : FutureType T V σ)
    (p : Promise T V) (v : V) (s : σ) :
    Step ft (p, s) (Op.complete v) (Promise.complete ft p v s) := by
  obtain ⟨_ | x⟩ := p
  · exact Step.completeNone v s
  · exact Step.completeSome x v s

/-- The drop-hook counterpart of `Step.agrees_complete`. -/
theorem Step.agrees_dropHook {T V σ : Type} (ft : FutureType T V σ)
    (p : Promise T V) (s : σ) :
    Step ft (p, s) Op.dropGuard (Promise.dropHook ft p s) := by
  obtain ⟨_ | x⟩ := p
  · exact Step.dropNone s
  · exact Step.dropSome x s

/-- A single step is determined by the start configuration and the
operation. -/
theorem Step.deterministic {T V σ : Type} {ft : FutureType T V σ}
    {c c₁ c₂ : Promise T V × σ} {op : Op V}
    (h₁ : Step ft c op c₁) (h₂ : Step ft c op c₂) : c₁ = c₂ := by
  cases h₁ <;> cases h₂ <;> rfl

/-- C1: over every guard lifecycle permitted by the API (wrap a
completable, then at most one explicit `complete(result)` call — which
consumes the guard, after which its drop hook still runs — followed by
the guard's drop), the wrapped completable's consuming `complete`
operation is invoked exactly once: the delivery trace has length 1
whether or not explicit completion was called. -/
theorem exactly_once_delivery {T V σ : Type} (ft : FutureType T V σ) (t : T)
    (a : Option V) (s : σ) :
    ((tracedRun ft t a s).2.2).length = 1 := by
  cases a <;> rfl

/-- C2: a guard wrapped and then dropped without `complete` delivers
exactly the contract's fallback `on_drop()` to the completable, and the
final effect state is that of completing with the fallback; in the
concrete test scenario (`completes_on_drop`) the sink receives exactly
one entry, `Err("dropped")`. -/
theorem abandonment_yields_fallback {T V σ : Type} (ft : FutureType T V σ)
    (t : T) (s : σ) :
    (tracedRun ft t none s).2.2 = [ft.on_drop] ∧
    (tracedRun ft t none s).2.1 = ft.complete t ft.on_drop s ∧
    (lifecycle borrowedFT () none []).2 = [Except.error "dropped"] :=
  ⟨rfl, rfl, rfl⟩

/-- C3: a guard on which `complete(result)` is explicitly called delivers
exactly `result` to the completable (the trace is `[result]`, so the
fallback branch never fires and nothing but `result` is ever delivered);
in the concrete test scenarios the sink receives exactly `Ok(42)`
(`only_completes_once_on_success`) resp. `Err("fail")`
(`only_completes_once_on_failure`). -/
theorem explicit_completion_yields_given_value {T V σ : Type}
    (ft : FutureType T V σ) (t : T) (v : V) (s : σ) :
    (tracedRun ft t (some v) s).2.2 = [v] ∧
    (lifecycle borrowedFT () (some (Except.ok 42)) []).2 = [Except.ok 42] ∧
    (lifecycle borrowedFT () (some (Except.error "fail")) []).2 =
      [Except.error "fail"] :=
  ⟨rfl, rfl, rfl⟩

/-- C4: calling `complete(v)` and then letting the guard drop delivers
exactly one value, the explicit one — and even a further teardown
attempt on the already-consumed guard appends no second entry. -/
theorem no_double_delivery {T V σ : Type} (ft : FutureType T V σ) (t : T)
    (v : V) (s : σ) :
    (tracedRun ft t (some v) s).2.2 = [v] ∧
    ((Promise.dropHook (traceFT ft) (tracedRun ft t (some v) s).1
        (tracedRun ft t (some v) s).2).2).2 = [v] :=
  ⟨rfl, rfl⟩

/-- C5: the slot (an `Option`, so it holds the completable at most once
by construction) is emptied in the very step in which either completion
path fires, and the two paths are mutually exclusive: each take-and-
clears the same slot before invoking the completable, so running either
path after the other obtains nothing and delivers nothing (the trace is
unchanged). -/
theorem slot_take_and_clear {T V σ : Type} (ft : FutureType T V σ)
    (p : Promise T V) (v : V) (s : σ) (st : σ × List V) :
    (Promise.complete ft p v s).1.inner = none ∧
    (Promise.dropHook ft p s).1.inner = none ∧
    ((Promise.dropHook (traceFT ft) (Promise.complete (traceFT ft) p v st).1
        (Promise.complete (traceFT ft) p v st).2).2).2 =
      ((Promise.complete (traceFT ft) p v st).2).2 ∧
    ((Promise.complete (traceFT ft) (Promise.dropHook (traceFT ft) p st).1 v
        (Promise.dropHook (traceFT ft) p st).2).2).2 =
      ((Promise.dropHook (traceFT ft) p st).2).2 := by
  obtain ⟨_ | x⟩ := p <;> exact ⟨rfl, rfl, rfl, rfl⟩

/-- C6: the completed state is terminal: on a guard whose slot is empty,
both the explicit completion path and the drop hook leave the guard and
the effect state completely unchanged — no delivery, no error, a silent
no-op. -/
theorem completed_is_terminal {T V σ : Type} (ft : FutureType T V σ)
    (v : V) (s : σ) :
    Promise.complete ft ⟨none⟩ v s = (⟨none⟩, s) ∧
    Promise.dropHook ft ⟨none⟩ s = (⟨none⟩, s) :=
  ⟨rfl, rfl⟩

/-- C7: `wrap` is a total function (no failure mode in the embedding): for
every completable `t` it returns a guard whose slot holds exactly `t`,
i.e. the guard starts in the Pending state. -/
theorem wrap_starts_pending {T V : Type} (t : T) :
    (wrap t : Promise T V).inner = some t :=
  rfl

/-- C8: the explicit path `wrap(t).complete(v)` (drop hook included) has
exactly the observable effect of calling `t.complete(v)` directly: the
final effect state is `directComplete`, and the trace `[v]` shows the
completable was invoked once with `v` only — the fallback branch, the
sole site evaluating `on_drop()`, never fires. -/
theorem explicit_path_refines_direct {T V σ : Type} (ft : FutureType T V σ)
    (t : T) (v : V) (s : σ) :
    (tracedRun ft t (some v) s).2 = (directComplete ft t v s, [v]) :=
  rfl

/-- C9: the guard surfaces no errors of its own (every operation is a
total function in the embedding); every value it ever delivers to the
wrapped completable is either the caller's explicit result or the
contract's fallback `on_drop()`. -/
theorem forwards_only_real_or_fallback {T V σ : Type} (ft : FutureType T V σ)
    (t : T) (a : Option V) (s : σ) (x : V)
    (hx : x ∈ (tracedRun ft t a s).2.2) :
    a = some x ∨ x = ft.on_drop := by
  cases a with
  | none =>
    right
    simpa [tracedRun, lifecycle, wrap, Promise.new, Promise.dropHook,
      traceFT] using hx
  | some v =>
    left
    have hv : x = v := by
      simpa [tracedRun, lifecycle, wrap, Promise.new, Promise.complete,
        Promise.dropHook, traceFT] using hx
    rw [hv]

theorem forwards_only_real_or_fallback_witness :
    (none : Option (Except String Nat)) = some (Except.error "dropped") ∨
    (Except.error "dropped" : Except String Nat) = borrowedFT.on_drop :=
  forwards_only_real_or_fallback borrowedFT () none [] (Except.error "dropped")
    (List.mem_singleton.mpr rfl)

/-- C10: the guard is deterministic: two runs starting from the same
configuration and applying the same sequence of operations end in the
same configuration (same guard state, same delivered values). -/
theorem runs_deterministic {T V σ : Type} {ft : FutureType T V σ}
    {c c₁ c₂ : Promise T V × σ} {ops : List (Op V)}
    (h₁ : Steps ft c ops c₁) (h₂ : Steps ft c ops c₂) : c₁ = c₂ := by
  induction h₁ generalizing c₂ with
  | nil _ => cases h₂; rfl
  | cons hs _ ih =>
    cases h₂ with
    | cons hs' htl =>
      cases Step.deterministic hs hs'
      exact ih htl

theorem runs_deterministic_witness :
    ((⟨none⟩, [Except.ok 42]) :
        Promise Unit (Except String Nat) × List (Except String Nat)) =
      (⟨none⟩, [Except.ok 42]) :=
  have d : Steps borrowedFT (⟨some ()⟩, [])
      [Op.complete (Except.ok 42), Op.dropGuard] (⟨none⟩, [Except.ok 42]) :=
    Steps.cons (Step.completeSome () (Except.ok 42) [])
      (Steps.cons (Step.dropNone [Except.ok 42]) (Steps.nil _))
  runs_deterministic d d
